import Mathlib

/-!
A shallow embedding of the bot-process orchestration layer of
`server/server.py` (the Phronesis pipecat server).

Modelling decisions, all taken from the source:

* The registry `bot_procs : Dict[int, Tuple[subprocess.Popen, str]]` is an
  insertion-ordered association list `Registry := List (Nat × Proc × String)`
  mapping a pid to (process handle, room url).  `del` removes by key;
  assignment `bot_procs[proc.pid] = (proc, room_url)` overwrites an existing
  key in place or appends a new one (`setEntry`), exactly like a Python dict.
* A process handle is abstracted by its observable behaviour during the
  termination snippet: whether `terminate()` raises, whether the process
  exits within the 5 s grace wait, and whether `kill()` raises.  The snippet
  `try: proc.terminate(); proc.wait(timeout=5) except TimeoutExpired:
  proc.kill()` appears verbatim in both `start_bot_process` and `stop_bot`;
  it is embedded once as `terminateProc`, returning the list of actions
  performed and whether an exception escaped (only `TimeoutExpired` is
  caught, so an `OSError` from `terminate()` or `kill()` propagates).
* `subprocess.Popen` is an oracle `spawn : List String → SpawnOutcome`
  receiving the command line the code builds.
* The external Daily API calls in `create_room_and_token` are oracles too:
  the two HTTP responses are inputs; the function also reports how many
  requests it issued, so that "no retry" is observable.
* Concurrency: the endpoints are `async def` handlers run by uvicorn on a
  single asyncio event loop, and `start_bot_process` is a plain synchronous
  function containing no `await`; under asyncio semantics it therefore runs
  atomically with respect to every other request handler.  Concurrent
  `connect` calls are modelled as an arbitrary-order sequence of atomic
  `start_bot_process` steps (`runStarts`), the order of the list being the
  schedule.
-/

namespace Phronesis

instance {α β : Type} [DecidableEq α] [DecidableEq β] : DecidableEq (Except α β)
  | Except.error x, Except.error y => decidable_of_iff (x = y) (by simp)
  | Except.error _, Except.ok _ => Decidable.isFalse (by simp)
  | Except.ok _, Except.error _ => Decidable.isFalse (by simp)
  | Except.ok x, Except.ok y => decidable_of_iff (x = y) (by simp)

/-- An observable action of the termination snippet: the graceful signal
(`proc.terminate()`), the bounded wait (`proc.wait(timeout=5)`), the forced
kill (`proc.kill()`), and a wait-after-kill action that the specification
mentions; the source never performs the last one. -/
inductive Action where
  | sigterm : Action
  | waitUpTo : Nat → Action
  | sigkill : Action
  | waitAfterKill : Action
deriving DecidableEq, Repr

/-- A `subprocess.Popen` handle, abstracted by its pid and by how it reacts
to the termination snippet. -/
structure Proc where
  pid : Nat
  terminateRaises : Bool
  exitsWithinGrace : Bool
  killRaises : Bool
deriving DecidableEq, Repr

/-- The registry `bot_procs`: pid ↦ (process handle, room url), insertion ordered. -/
abbrev Registry := List (Nat × Proc × String)

/-- An error escaping an operation: a `fastapi.HTTPException` with status
and detail, or an uncaught OS-level exception from process signalling. -/
inductive Err where
  | http : Nat → String → Err
  | osError : Err
deriving DecidableEq, Repr

/-- The termination snippet shared verbatim by `start_bot_process` and
`stop_bot`:

    try:
        proc.terminate()
        proc.wait(timeout=5)
    except subprocess.TimeoutExpired:
        proc.kill()

Returns the actions performed and whether an exception escaped (only
`TimeoutExpired` is caught; a raising `terminate()` or `kill()` escapes). -/
def terminateProc (p : Proc) : List Action × Bool :=
  if p.terminateRaises then
    ([Action.sigterm], true)
  else if p.exitsWithinGrace then
    ([Action.sigterm, Action.waitUpTo 5], false)
  else
    ([Action.sigterm, Action.waitUpTo 5, Action.sigkill], p.killRaises)

/-- The cleanup loop at the top of `start_bot_process`:

    for pid, (proc, room) in list(bot_procs.items()):
        if room == room_url:
            <terminateProc>
            del bot_procs[pid]

Returns (registry after the loop, signals sent as (pid, actions) pairs,
whether an exception escaped).  When the snippet raises on an entry, that
entry's `del` is skipped and the remaining entries are left untouched. -/
def cleanupRoom (room_url : String) : Registry → Registry × List (Nat × List Action) × Bool
  | [] => ([], [], false)
  | e :: rest =>
    if e.2.2 = room_url then
      let t := terminateProc e.2.1
      if t.2 then
        (e :: rest, [(e.1, t.1)], true)
      else
        let r := cleanupRoom room_url rest
        (r.1, (e.1, t.1) :: r.2.1, r.2.2)
    else
      let r := cleanupRoom room_url rest
      (e :: r.1, r.2.1, r.2.2)

/-- Python dict assignment `bot_procs[pid] = (p, room)`: overwrite in place
if the key exists, append otherwise. -/
def setEntry (regs : Registry) (pid : Nat) (p : Proc) (room : String) : Registry :=
  if regs.any (fun e => e.1 = pid) then
    regs.map (fun e => if e.1 = pid then (pid, p, room) else e)
  else
    regs ++ [(pid, p, room)]

/-- The command line built in `start_bot_process`:

    cmd = [sys.executable, bot_file, "-u", room_url, "-t", token,
           "--bot-type", bot_type, "--topic", topic, "--concept", concept] -/
def bot_cmd (exe file room_url token bot_type topic concept : String) : List String :=
  [exe, file, "-u", room_url, "-t", token,
   "--bot-type", bot_type, "--topic", topic, "--concept", concept]

/-- Outcome of `subprocess.Popen(cmd, ...)`: a new process handle, or an
exception message (executable missing, OS refusal). -/
inductive SpawnOutcome where
  | ok : Proc → SpawnOutcome
  | fail : String → SpawnOutcome
deriving DecidableEq, Repr

/-- Result of `start_bot_process`: the registry afterwards, the termination
signals sent, the command line passed to `Popen` (none when the cleanup loop
raised before reaching the spawn), and the returned pid or escaping error. -/
structure StartResult where
  registry : Registry
  signals : List (Nat × List Action)
  cmd : Option (List String)
  outcome : Except Err Nat
deriving DecidableEq, Repr

/-- The operation `start_bot_process(room_url, token, bot_type, topic, concept)`: run the
cleanup loop for the room, build the command line, spawn, and on success
register the new handle under its pid.  A spawn exception is re-raised as
`HTTPException(500, "Failed to start bot: ...")`; an exception escaping the
cleanup loop propagates as-is and nothing further runs. -/
def start_bot_process (regs : Registry) (exe file room_url token bot_type topic concept : String)
    (spawn : List String → SpawnOutcome) : StartResult :=
  let c := cleanupRoom room_url regs
  if c.2.2 then
    ⟨c.1, c.2.1, none, Except.error Err.osError⟩
  else
    let cmd := bot_cmd exe file room_url token bot_type topic concept
    match spawn cmd with
    | SpawnOutcome.fail msg =>
        ⟨c.1, c.2.1, some cmd, Except.error (Err.http 500 ("Failed to start bot: " ++ msg))⟩
    | SpawnOutcome.ok p =>
        ⟨setEntry c.1 p.pid p room_url, c.2.1, some cmd, Except.ok p.pid⟩

/-- Result of `stop_bot`: registry afterwards, actions performed on the
target process, and the response or escaping error. -/
structure StopResult where
  registry : Registry
  signals : List Action
  outcome : Except Err String
deriving DecidableEq, Repr

/-- The `DELETE /bot/{bot_pid}` handler `stop_bot`: 404 if the pid is not
registered; otherwise run the termination snippet with the entry removal in
a `finally`, so the entry is removed even when the snippet raises, and the
exception still propagates. -/
def stop_bot (regs : Registry) (bot_pid : Nat) : StopResult :=
  match regs.find? (fun e => e.1 = bot_pid) with
  | none => ⟨regs, [], Except.error (Err.http 404 "Bot not found")⟩
  | some e =>
    let t := terminateProc e.2.1
    let regs' := regs.filter (fun x => ¬ x.1 = bot_pid)
    ⟨regs', t.1,
      if t.2 then Except.error Err.osError
      else Except.ok ("Bot " ++ toString bot_pid ++ " stopped")⟩

/-- The JSON body returned by `GET /status`. -/
structure StatusResp where
  status : String
  active_bots : Nat
  bot_processes : List (Nat × String)
deriving DecidableEq, Repr

/-- The `GET /status` handler: `{"status": "running", "active_bots":
len(bot_procs), "bot_processes": [{"pid": pid, "room": room} ...]}`. -/
def status (regs : Registry) : StatusResp :=
  ⟨"running", regs.length, regs.map (fun e => (e.1, e.2.2))⟩

/-- The parsed JSON body of the Daily `POST /rooms` response, as the code
reads it: `room_data["url"]` and `room_data["name"]` (a missing key raises
`KeyError`). -/
structure RoomBody where
  url : Option String
  name : Option String
deriving DecidableEq, Repr

/-- The parsed JSON body of the Daily `POST /meeting-tokens` response. -/
structure TokenBody where
  token : Option String
deriving DecidableEq, Repr

/-- An upstream HTTP response: status code, raw text, and the result of
`.json()` (an error value models a JSON decode exception message). -/
structure ApiResp (β : Type) where
  status : Nat
  text : String
  json : Except String β
deriving DecidableEq, Repr

/-- The provisioner `create_room_and_token`, with the two upstream responses as oracles.
Returns the result together with the number of upstream requests issued.
Every failure inside the `try` raises `Exception(...)` or a key/decode
error, which the outer handler wraps as
`HTTPException(500, "Failed to create room: " + str(e))` — note the outer
prefix is always "Failed to create room: ", even for token failures. -/
def create_room_and_token (r : ApiResp RoomBody) (t : ApiResp TokenBody) :
    Except Err (String × String) × Nat :=
  if ¬ (r.status = 200 ∨ r.status = 201) then
    (Except.error (Err.http 500
      ("Failed to create room: " ++ ("Failed to create room: " ++ r.text))), 1)
  else
    match r.json with
    | Except.error m =>
        (Except.error (Err.http 500 ("Failed to create room: " ++ m)), 1)
    | Except.ok rb =>
      match rb.url with
      | none =>
          (Except.error (Err.http 500 ("Failed to create room: " ++ "'url'")), 1)
      | some room_url =>
        match rb.name with
        | none =>
            (Except.error (Err.http 500 ("Failed to create room: " ++ "'name'")), 1)
        | some _ =>
          if ¬ (t.status = 200 ∨ t.status = 201) then
            (Except.error (Err.http 500
              ("Failed to create room: " ++ ("Failed to create token: " ++ t.text))), 2)
          else
            match t.json with
            | Except.error m =>
                (Except.error (Err.http 500 ("Failed to create room: " ++ m)), 2)
            | Except.ok tb =>
              match tb.token with
              | none =>
                  (Except.error (Err.http 500 ("Failed to create room: " ++ "'token'")), 2)
              | some tok => (Except.ok (room_url, tok), 2)

/-- One atomic `start_bot_process` step of a `connect` call (the handler is
synchronous code without an `await`, hence atomic on the event loop),
threading the registry and accumulating the signals sent. -/
def startStep (exe file room_url token bt tp cc : String)
    (st : Registry × List (Nat × List Action)) (p : Proc) :
    Registry × List (Nat × List Action) :=
  let r := start_bot_process st.1 exe file room_url token bt tp cc (fun _ => SpawnOutcome.ok p)
  (r.registry, st.2 ++ r.signals)

/-- N concurrent `connect` calls for the same room: an arbitrary-order
schedule of atomic start steps, beginning from an empty registry.  `procs`
lists, in schedule order, the handle each call's spawn produces. -/
def runStarts (exe file room_url token bt tp cc : String) (procs : List Proc) :
    Registry × List (Nat × List Action) :=
  procs.foldl (startStep exe file room_url token bt tp cc) ([], [])

/-! ### Helper lemmas about the termination snippet and the cleanup loop -/

/-- Every run of the termination snippet begins by sending the graceful
termination signal. -/
theorem terminateProc_sigterm (p : Proc) : Action.sigterm ∈ (terminateProc p).1 := by
  cases h1 : p.terminateRaises <;> cases h2 : p.exitsWithinGrace <;>
    simp [terminateProc, h1, h2]

/-- When neither `terminate()` nor `kill()` raises, no exception escapes the
termination snippet. -/
theorem terminateProc_no_escape (p : Proc) (h1 : p.terminateRaises = false)
    (h2 : p.killRaises = false) : (terminateProc p).2 = false := by
  cases hg : p.exitsWithinGrace <;> simp [terminateProc, h1, h2, hg]

/-- When the cleanup loop completes without an escaping exception, the
registry afterwards holds exactly the entries of other rooms, in order. -/
theorem cleanupRoom_registry_of_ok (room : String) :
    ∀ regs : Registry, (cleanupRoom room regs).2.2 = false →
      (cleanupRoom room regs).1 = regs.filter (fun e => ¬ e.2.2 = room) := by
  intro regs
  induction regs with
  | nil => intro _; simp [cleanupRoom]
  | cons e rest ih =>
    intro h
    by_cases hr : e.2.2 = room
    · by_cases ht : (terminateProc e.2.1).2 = true
      · simp [cleanupRoom, hr, ht] at h
      · simp only [Bool.not_eq_true] at ht
        simp only [cleanupRoom, if_pos hr, ht, if_neg Bool.false_ne_true] at h ⊢
        rw [ih h, List.filter_cons]
        simp [hr]
    · simp only [cleanupRoom, if_neg hr] at h ⊢
      rw [ih h, List.filter_cons]
      simp [hr]

/-- When the cleanup loop completes without an escaping exception, every
entry of the target room was put through the termination snippet and its
signals recorded. -/
theorem cleanupRoom_signals_of_ok (room : String) :
    ∀ regs : Registry, (cleanupRoom room regs).2.2 = false →
      ∀ e ∈ regs, e.2.2 = room →
        (e.1, (terminateProc e.2.1).1) ∈ (cleanupRoom room regs).2.1 := by
  intro regs
  induction regs with
  | nil => intro _ e he; simp at he
  | cons a rest ih =>
    intro h e he hroom
    by_cases hr : a.2.2 = room
    · by_cases ht : (terminateProc a.2.1).2 = true
      · simp [cleanupRoom, hr, ht] at h
      · simp only [Bool.not_eq_true] at ht
        simp only [cleanupRoom, if_pos hr, ht, if_neg Bool.false_ne_true] at h ⊢
        rcases List.mem_cons.mp he with rfl | hmem
        · exact List.mem_cons_self _ _
        · exact List.mem_cons_of_mem _ (ih h e hmem hroom)
    · simp only [cleanupRoom, if_neg hr] at h ⊢
      rcases List.mem_cons.mp he with rfl | hmem
      · exact absurd hroom hr
      · exact ih h e hmem hroom

/-- When an exception escapes the cleanup loop, the registry afterwards
still holds an entry of the target room whose termination snippet raised. -/
theorem cleanupRoom_err_witness (room : String) :
    ∀ regs : Registry, (cleanupRoom room regs).2.2 = true →
      ∃ e ∈ (cleanupRoom room regs).1, e.2.2 = room ∧ (terminateProc e.2.1).2 = true := by
  intro regs
  induction regs with
  | nil => intro h; simp [cleanupRoom] at h
  | cons a rest ih =>
    intro h
    by_cases hr : a.2.2 = room
    · by_cases ht : (terminateProc a.2.1).2 = true
      · refine ⟨a, ?_, hr, ht⟩
        simp [cleanupRoom, hr, ht]
      · simp only [Bool.not_eq_true] at ht
        simp only [cleanupRoom, if_pos hr, ht, if_neg Bool.false_ne_true] at h ⊢
        exact ih h
    · simp only [cleanupRoom, if_neg hr] at h ⊢
      obtain ⟨e, hmem, he⟩ := ih h
      exact ⟨e, List.mem_cons_of_mem _ hmem, he⟩

/-- Registering under a pid absent from the registry appends the entry. -/
theorem setEntry_fresh (regs : Registry) (pid : Nat) (p : Proc) (room : String)
    (h : ∀ e ∈ regs, ¬ e.1 = pid) : setEntry regs pid p room = regs ++ [(pid, p, room)] := by
  unfold setEntry
  rw [if_neg]
  simp only [List.any_eq_true, decide_eq_true_eq, not_exists]
  intro e
  by_cases he : e ∈ regs
  · simp [he, h e he]
  · simp [he]

/-! ### Claims -/

/-- C6: for every id that is not currently registered, `stop_bot` fails
with a 404 "Bot not found" `HTTPException` and leaves the registry
completely unchanged (and sends no signal). -/
theorem stop_bot_not_found (regs : Registry) (pid : Nat)
    (h : ∀ e ∈ regs, ¬ e.1 = pid) :
    stop_bot regs pid = ⟨regs, [], Except.error (Err.http 404 "Bot not found")⟩ := by
  unfold stop_bot
  have hf : regs.find? (fun e => e.1 = pid) = none := by
    rw [List.find?_eq_none]
    intro e he
    simpa using h e he
  rw [hf]

/-- Witness for C6: stopping pid 9 when only pid 3 is registered. -/
theorem stop_bot_not_found_witness :
    stop_bot [(3, ⟨3, false, true, false⟩, "roomA")] 9
      = ⟨[(3, ⟨3, false, true, false⟩, "roomA")], [],
          Except.error (Err.http 404 "Bot not found")⟩ :=
  stop_bot_not_found [(3, ⟨3, false, true, false⟩, "roomA")] 9 (by decide)

/-- C9: every `GET /status` response is
`{status: "running", active_bots, bot_processes}` where `active_bots`
equals the length of `bot_processes` and `bot_processes` lists the
(pid, room) of every registry entry of the same snapshot. -/
theorem status_shape (regs : Registry) :
    (status regs).status = "running" ∧
    (status regs).active_bots = (status regs).bot_processes.length ∧
    (status regs).bot_processes = regs.map (fun e => (e.1, e.2.2)) := by
  refine ⟨rfl, ?_, rfl⟩
  simp [status]

/-- C8: whenever `start_bot_process` reaches the spawn, the worker is
invoked with exactly the room URL, the token, and the three BotSpec fields,
under the flag contract `-u room_url -t token --bot-type --topic
--concept`. -/
theorem start_worker_invocation (regs : Registry)
    (exe file room_url token bot_type topic concept : String)
    (spawn : List String → SpawnOutcome)
    (h : (cleanupRoom room_url regs).2.2 = false) :
    (start_bot_process regs exe file room_url token bot_type topic concept spawn).cmd
      = some [exe, file, "-u", room_url, "-t", token,
              "--bot-type", bot_type, "--topic", topic, "--concept", concept] := by
  have hb : bot_cmd exe file room_url token bot_type topic concept
      = [exe, file, "-u", room_url, "-t", token,
         "--bot-type", bot_type, "--topic", topic, "--concept", concept] := rfl
  rw [← hb]
  cases hs : spawn (bot_cmd exe file room_url token bot_type topic concept) <;>
    simp only [start_bot_process, h, Bool.false_eq_true, if_false, hs]

/-- Witness for C8: a concrete quiz-bot start. -/
theorem start_worker_invocation_witness :
    (start_bot_process [] "python" "bot-gemini.py" "https://d.co/rA" "tok" "quiz"
        "Computer Networks" "" (fun _ => SpawnOutcome.ok ⟨2, false, true, false⟩)).cmd
      = some ["python", "bot-gemini.py", "-u", "https://d.co/rA", "-t", "tok",
              "--bot-type", "quiz", "--topic", "Computer Networks", "--concept", ""] :=
  start_worker_invocation [] "python" "bot-gemini.py" "https://d.co/rA" "tok" "quiz"
    "Computer Networks" "" (fun _ => SpawnOutcome.ok ⟨2, false, true, false⟩) rfl

/-- C7: if spawning the new worker fails, `start_bot_process` fails with
`HTTPException(500, "Failed to start bot: ...")`, registers no new entry
(every entry afterwards was already registered before), and attempts no
retry (the spawn oracle is consulted on the single built command). -/
theorem start_spawn_failure (regs : Registry)
    (exe file room_url token bot_type topic concept msg : String)
    (h : (cleanupRoom room_url regs).2.2 = false) :
    (start_bot_process regs exe file room_url token bot_type topic concept
        (fun _ => SpawnOutcome.fail msg)).outcome
      = Except.error (Err.http 500 ("Failed to start bot: " ++ msg)) ∧
    (start_bot_process regs exe file room_url token bot_type topic concept
        (fun _ => SpawnOutcome.fail msg)).registry
      = regs.filter (fun e => ¬ e.2.2 = room_url) ∧
    ∀ e ∈ (start_bot_process regs exe file room_url token bot_type topic concept
        (fun _ => SpawnOutcome.fail msg)).registry, e ∈ regs := by
  refine ⟨?_, ?_, ?_⟩
  · simp [start_bot_process, h]
  · simp [start_bot_process, h, cleanupRoom_registry_of_ok room_url regs h]
  · intro e he
    simp only [start_bot_process, h, if_neg Bool.false_ne_true,
      cleanupRoom_registry_of_ok room_url regs h] at he
    exact List.mem_of_mem_filter he

/-- Witness for C7: spawn failure with one other-room entry registered. -/
theorem start_spawn_failure_witness :
    (start_bot_process [(3, ⟨3, false, true, false⟩, "roomB")] "python" "bot-gemini.py"
        "roomA" "tok" "general" "" "" (fun _ => SpawnOutcome.fail "No such file")).outcome
      = Except.error (Err.http 500 ("Failed to start bot: " ++ "No such file")) :=
  (start_spawn_failure [(3, ⟨3, false, true, false⟩, "roomB")] "python" "bot-gemini.py"
    "roomA" "tok" "general" "" "" "No such file" (by decide)).1

/-- C10: `start_bot_process` is not atomic on spawn failure — when the
spawn fails after the stale-entry cleanup, every previously registered
worker for the target room is already gone and is not restored, so the
registry afterwards contains no entry at all for that room. -/
theorem start_spawn_failure_room_empty (regs : Registry)
    (exe file room_url token bot_type topic concept msg : String)
    (h : (cleanupRoom room_url regs).2.2 = false) :
    (∀ e ∈ (start_bot_process regs exe file room_url token bot_type topic concept
        (fun _ => SpawnOutcome.fail msg)).registry, ¬ e.2.2 = room_url) ∧
    (∀ e ∈ regs, e.2.2 = room_url →
      e ∉ (start_bot_process regs exe file room_url token bot_type topic concept
        (fun _ => SpawnOutcome.fail msg)).registry) := by
  have hreg : (start_bot_process regs exe file room_url token bot_type topic concept
      (fun _ => SpawnOutcome.fail msg)).registry
      = regs.filter (fun e => ¬ e.2.2 = room_url) := by
    simp [start_bot_process, h, cleanupRoom_registry_of_ok room_url regs h]
  constructor
  · intro e he
    rw [hreg] at he
    simpa using (List.mem_filter.mp he).2
  · intro e _ hroom he
    rw [hreg] at he
    have := (List.mem_filter.mp he).2
    simp [hroom] at this

/-- Witness for C10: after a failed spawn for roomA, the previously
registered roomA worker is gone and not restored. -/
theorem start_spawn_failure_room_empty_witness :
    (3, (⟨3, false, true, false⟩ : Proc), "roomA")
      ∉ (start_bot_process [(3, ⟨3, false, true, false⟩, "roomA")] "python"
        "bot-gemini.py" "roomA" "tok" "general" "" ""
        (fun _ => SpawnOutcome.fail "No such file")).registry :=
  (start_spawn_failure_room_empty [(3, ⟨3, false, true, false⟩, "roomA")] "python"
    "bot-gemini.py" "roomA" "tok" "general" "" "" "No such file" (by decide)).2
    (3, ⟨3, false, true, false⟩, "roomA") (by decide) (by decide)

/-- C1: after a completed (successfully returning) `start_bot_process`
call, the registry contains exactly one entry whose room equals the target
room — the new handle keyed by the pid the call returns — and every
previously registered entry for that room has been removed and was sent at
least the graceful termination signal. -/
theorem start_singleton_per_room (regs : Registry)
    (exe file room_url token bot_type topic concept : String)
    (spawn : List String → SpawnOutcome) (p : Proc)
    (hspawn : spawn (bot_cmd exe file room_url token bot_type topic concept)
      = SpawnOutcome.ok p)
    (hfresh : ∀ e ∈ regs, ¬ e.1 = p.pid)
    (h : (cleanupRoom room_url regs).2.2 = false) :
    (start_bot_process regs exe file room_url token bot_type topic concept spawn).outcome
      = Except.ok p.pid ∧
    (start_bot_process regs exe file room_url token bot_type topic concept
        spawn).registry.filter (fun e => e.2.2 = room_url)
      = [(p.pid, p, room_url)] ∧
    ∀ e ∈ regs, e.2.2 = room_url →
      e ∉ (start_bot_process regs exe file room_url token bot_type topic concept
        spawn).registry ∧
      ∃ acts, (e.1, acts) ∈ (start_bot_process regs exe file room_url token bot_type
        topic concept spawn).signals ∧ Action.sigterm ∈ acts := by
  have hreg : (start_bot_process regs exe file room_url token bot_type topic concept
      spawn).registry = regs.filter (fun e => ¬ e.2.2 = room_url) ++ [(p.pid, p, room_url)] := by
    have hfresh' : ∀ e ∈ regs.filter (fun e => ¬ e.2.2 = room_url), ¬ e.1 = p.pid :=
      fun e he => hfresh e (List.mem_of_mem_filter he)
    simp only [start_bot_process, h, Bool.false_eq_true, if_false, hspawn,
      cleanupRoom_registry_of_ok room_url regs h, setEntry_fresh _ _ _ _ hfresh']
  have hsig : (start_bot_process regs exe file room_url token bot_type topic concept
      spawn).signals = (cleanupRoom room_url regs).2.1 := by
    simp only [start_bot_process, h, Bool.false_eq_true, if_false, hspawn]
  refine ⟨?_, ?_, ?_⟩
  · simp only [start_bot_process, h, Bool.false_eq_true, if_false, hspawn]
  · rw [hreg, List.filter_append]
    have h1 : (regs.filter (fun e => ¬ e.2.2 = room_url)).filter
        (fun e => e.2.2 = room_url) = [] := by
      rw [List.filter_eq_nil_iff]
      intro e he
      have := (List.mem_filter.mp he).2
      simpa using this
    rw [h1]
    simp
  · intro e he hroom
    constructor
    · rw [hreg]
      intro hmem
      rcases List.mem_append.mp hmem with hl | hr
      · have := (List.mem_filter.mp hl).2
        simp [hroom] at this
      · have : e = (p.pid, p, room_url) := by simpa using hr
        exact hfresh e he (by rw [this])
    · refine ⟨(terminateProc e.2.1).1, ?_, terminateProc_sigterm e.2.1⟩
      rw [hsig]
      exact cleanupRoom_signals_of_ok room_url regs h e he hroom

/-- Witness for C1: restarting roomA over a stale roomA worker. -/
theorem start_singleton_per_room_witness :
    (start_bot_process [(3, ⟨3, false, true, false⟩, "roomA")] "python" "bot-gemini.py"
        "roomA" "tok" "general" "" ""
        (fun _ => SpawnOutcome.ok ⟨7, false, true, false⟩)).registry.filter
      (fun e => e.2.2 = "roomA") = [(7, ⟨7, false, true, false⟩, "roomA")] :=
  (start_singleton_per_room [(3, ⟨3, false, true, false⟩, "roomA")] "python"
    "bot-gemini.py" "roomA" "tok" "general" "" ""
    (fun _ => SpawnOutcome.ok ⟨7, false, true, false⟩) ⟨7, false, true, false⟩
    rfl (by decide) (by decide)).2.1

/-- A worker that ignores the graceful signal and outlives the grace
period; its `terminate()` and `kill()` calls themselves succeed. -/
def stubbornProc : Proc := ⟨7, false, false, false⟩

/-- Counterexample for C3: for a worker that survives the grace period the
termination snippet's trace is exactly `[sigterm, wait 5, sigkill]` — the
forced kill is the final action and the claimed "wait briefly for exit
confirmation" after it never happens (`proc.kill()` is not followed by any
`wait`). -/
theorem terminateProc_no_wait_after_kill :
    Action.sigkill ∈ (terminateProc stubbornProc).1 ∧
    (terminateProc stubbornProc).1
      = [Action.sigterm, Action.waitUpTo 5, Action.sigkill] ∧
    Action.waitAfterKill ∉ (terminateProc stubbornProc).1 := by decide

/-- C3 amended: the termination snippet sends the graceful signal and waits
up to the fixed 5-second grace period; a worker that exits within the grace
period is never sent a forced kill; one that does not is sent the forced
kill only after the full grace wait — but the snippet then returns at once,
without waiting for exit confirmation. -/
theorem terminateProc_trace (p : Proc) (h : p.terminateRaises = false) :
    (terminateProc p).1
      = (if p.exitsWithinGrace then [Action.sigterm, Action.waitUpTo 5]
         else [Action.sigterm, Action.waitUpTo 5, Action.sigkill]) ∧
    (p.exitsWithinGrace = true → Action.sigkill ∉ (terminateProc p).1) ∧
    Action.waitAfterKill ∉ (terminateProc p).1 := by
  cases hg : p.exitsWithinGrace <;> simp [terminateProc, h, hg]

/-- Witness for C3 amended: a worker exiting within the grace period is
never force-killed. -/
theorem terminateProc_trace_witness :
    Action.sigkill ∉ (terminateProc ⟨3, false, true, false⟩).1 :=
  (terminateProc_trace ⟨3, false, true, false⟩ rfl).2.1 rfl

/-- A worker whose `terminate()` call raises an `OSError` (only
`TimeoutExpired` is caught by the snippet). -/
def badTermProc : Proc := ⟨1, true, false, false⟩

/-- Counterexample for C4: when `terminate()` raises during the stale-entry
cleanup in `start_bot_process`, the error escapes to the caller and the
stale entry is *not* removed from the registry. -/
theorem termination_error_escapes_start :
    (start_bot_process [(1, badTermProc, "roomA")] "python" "bot-gemini.py" "roomA"
        "tok" "general" "" "" (fun _ => SpawnOutcome.ok ⟨2, false, true, false⟩)).outcome
      = Except.error Err.osError ∧
    (1, badTermProc, "roomA") ∈ (start_bot_process [(1, badTermProc, "roomA")] "python"
        "bot-gemini.py" "roomA" "tok" "general" "" ""
        (fun _ => SpawnOutcome.ok ⟨2, false, true, false⟩)).registry := by decide

/-- C4 amended: the only failure the termination snippet absorbs is the
grace-period timeout of the graceful wait, escalated to a forced kill; an
error raised by the signalling itself propagates to the caller on both
paths.  On the stop path the registry entry is nevertheless removed in
every case (the removal sits in a `finally`); on the start path a raising
snippet aborts the call and an entry of the target room whose snippet
raised remains registered. -/
theorem termination_error_policy (regs : Registry) (pid : Nat) (e : Nat × Proc × String)
    (hfind : regs.find? (fun x => x.1 = pid) = some e)
    (exe file room_url token bot_type topic concept : String)
    (spawn : List String → SpawnOutcome)
    (herr : (cleanupRoom room_url regs).2.2 = true) :
    (stop_bot regs pid).registry = regs.filter (fun x => ¬ x.1 = pid) ∧
    ((terminateProc e.2.1).2 = true →
      (stop_bot regs pid).outcome = Except.error Err.osError) ∧
    ((terminateProc e.2.1).2 = false →
      (stop_bot regs pid).outcome = Except.ok ("Bot " ++ toString pid ++ " stopped")) ∧
    (start_bot_process regs exe file room_url token bot_type topic concept spawn).outcome
      = Except.error Err.osError ∧
    ∃ x ∈ (start_bot_process regs exe file room_url token bot_type topic concept
        spawn).registry, x.2.2 = room_url ∧ (terminateProc x.2.1).2 = true := by
  refine ⟨?_, ?_, ?_, ?_, ?_⟩
  · simp only [stop_bot, hfind]
  · intro ht; simp only [stop_bot, hfind, ht, if_true]
  · intro ht; simp only [stop_bot, hfind, ht, Bool.false_eq_true, if_false]
  · simp only [start_bot_process, herr, if_true]
  · have hreg : (start_bot_process regs exe file room_url token bot_type topic concept
        spawn).registry = (cleanupRoom room_url regs).1 := by
      simp only [start_bot_process, herr, if_true]
    rw [hreg]
    exact cleanupRoom_err_witness room_url regs herr

/-- Witness for C4 amended: stopping a worker whose `terminate()` raises
still removes its registry entry. -/
theorem termination_error_policy_witness :
    (stop_bot [(1, badTermProc, "roomA")] 1).registry
      = [(1, badTermProc, "roomA")].filter (fun x => ¬ x.1 = 1) :=
  (termination_error_policy [(1, badTermProc, "roomA")] 1 (1, badTermProc, "roomA")
    (by decide) "python" "bot-gemini.py" "roomA" "tok" "general" "" ""
    (fun _ => SpawnOutcome.ok ⟨2, false, true, false⟩) (by decide)).1

/-- Counterexample for C5: two room-creation responses that differ only in
their (non-success) status codes produce identical results, so the raised
error cannot carry the upstream status code; it is surfaced as a plain 500
whose detail repeats only the upstream body text. -/
theorem provision_error_drops_status :
    create_room_and_token ⟨403, "denied", Except.error "e"⟩
        ⟨200, "", Except.ok ⟨some "tok"⟩⟩
      = create_room_and_token ⟨502, "denied", Except.error "e"⟩
          ⟨200, "", Except.ok ⟨some "tok"⟩⟩ ∧
    (create_room_and_token ⟨403, "denied", Except.error "e"⟩
        ⟨200, "", Except.ok ⟨some "tok"⟩⟩).1
      = Except.error (Err.http 500
          "Failed to create room: Failed to create room: denied") ∧
    (403 : Nat) ≠ 502 := by
  refine ⟨rfl, rfl, by decide⟩

/-- C5 amended: `create_room_and_token` fails whenever either upstream call
returns a non-success status or a malformed body; the failure is surfaced
immediately as `HTTPException(500, ...)` whose detail carries the upstream
response body text for a non-success status, the decode-error text for an
undecodable body, or the missing key's `KeyError` text (`'url'`, `'name'`,
`'token'`) for a body lacking a required key — but never the upstream
status code; no retry is attempted (exactly one request has been issued
when the room call fails, exactly two when the token call fails). -/
theorem provision_failure_behaviour (r : ApiResp RoomBody) (t : ApiResp TokenBody) :
    (¬ (r.status = 200 ∨ r.status = 201) →
      create_room_and_token r t
        = (Except.error (Err.http 500
            ("Failed to create room: " ++ ("Failed to create room: " ++ r.text))), 1)) ∧
    (∀ m, (r.status = 200 ∨ r.status = 201) → r.json = Except.error m →
      create_room_and_token r t
        = (Except.error (Err.http 500 ("Failed to create room: " ++ m)), 1)) ∧
    (∀ rb, (r.status = 200 ∨ r.status = 201) → r.json = Except.ok rb →
      rb.url = none →
      create_room_and_token r t
        = (Except.error (Err.http 500 ("Failed to create room: " ++ "'url'")), 1)) ∧
    (∀ rb u, (r.status = 200 ∨ r.status = 201) → r.json = Except.ok rb →
      rb.url = some u → rb.name = none →
      create_room_and_token r t
        = (Except.error (Err.http 500 ("Failed to create room: " ++ "'name'")), 1)) ∧
    (∀ rb u n, (r.status = 200 ∨ r.status = 201) → r.json = Except.ok rb →
      rb.url = some u → rb.name = some n → ¬ (t.status = 200 ∨ t.status = 201) →
      create_room_and_token r t
        = (Except.error (Err.http 500
            ("Failed to create room: " ++ ("Failed to create token: " ++ t.text))), 2)) ∧
    (∀ rb u n tm, (r.status = 200 ∨ r.status = 201) → r.json = Except.ok rb →
      rb.url = some u → rb.name = some n → (t.status = 200 ∨ t.status = 201) →
      t.json = Except.error tm →
      create_room_and_token r t
        = (Except.error (Err.http 500 ("Failed to create room: " ++ tm)), 2)) ∧
    (∀ rb u n tb, (r.status = 200 ∨ r.status = 201) → r.json = Except.ok rb →
      rb.url = some u → rb.name = some n → (t.status = 200 ∨ t.status = 201) →
      t.json = Except.ok tb → tb.token = none →
      create_room_and_token r t
        = (Except.error (Err.http 500 ("Failed to create room: " ++ "'token'")), 2)) := by
  refine ⟨?_, ?_, ?_, ?_, ?_, ?_, ?_⟩
  · intro h
    unfold create_room_and_token
    rw [if_pos h]
  · intro m h hm
    unfold create_room_and_token
    rw [if_neg (not_not_intro h), hm]
  · intro rb h hrb hu
    unfold create_room_and_token
    rw [if_neg (not_not_intro h), hrb]
    simp [hu]
  · intro rb u h hrb hu hn
    unfold create_room_and_token
    rw [if_neg (not_not_intro h), hrb]
    simp [hu, hn]
  · intro rb u n h hrb hu hn ht
    unfold create_room_and_token
    rw [if_neg (not_not_intro h), hrb]
    simp [hu, hn, ht]
  · intro rb u n tm h hrb hu hn ht htm
    unfold create_room_and_token
    rw [if_neg (not_not_intro h), hrb]
    rcases ht with ht | ht <;> simp [hu, hn, ht, htm]
  · intro rb u n tb h hrb hu hn ht htb htok
    unfold create_room_and_token
    rw [if_neg (not_not_intro h), hrb]
    rcases ht with ht | ht <;> simp [hu, hn, ht, htb, htok]

/-- Witness for C5 amended: a 403 room-creation response fails with a 500
carrying the body, after a single upstream request. -/
theorem provision_failure_behaviour_witness :
    create_room_and_token ⟨403, "forbidden", Except.error "e"⟩
        ⟨200, "", Except.ok ⟨some "tok"⟩⟩
      = (Except.error (Err.http 500
          ("Failed to create room: " ++ ("Failed to create room: " ++ "forbidden"))), 1) :=
  (provision_failure_behaviour ⟨403, "forbidden", Except.error "e"⟩
    ⟨200, "", Except.ok ⟨some "tok"⟩⟩).1 (by decide)

/-- Auxiliary invariant for C2: folding further atomic start steps from a
registry holding exactly one worker of the target room leaves exactly the
schedule's last worker registered, preserves the signals already recorded,
and terminates (signals) every superseded worker. -/
theorem runStarts_invariant (exe file room_url token bt tp cc : String) :
    ∀ (procs : List Proc) (qp : Proc) (sigs0 : List (Nat × List Action)),
      qp.terminateRaises = false → qp.killRaises = false →
      (∀ p ∈ procs, p.terminateRaises = false ∧ p.killRaises = false) →
      (procs.foldl (startStep exe file room_url token bt tp cc)
          ([(qp.pid, qp, room_url)], sigs0)).1
        = [((procs.getLastD qp).pid, procs.getLastD qp, room_url)] ∧
      (∀ x ∈ sigs0, x ∈ (procs.foldl (startStep exe file room_url token bt tp cc)
          ([(qp.pid, qp, room_url)], sigs0)).2) ∧
      (∀ p ∈ (qp :: procs).dropLast,
        ∃ acts, (p.pid, acts) ∈ (procs.foldl (startStep exe file room_url token bt tp cc)
          ([(qp.pid, qp, room_url)], sigs0)).2 ∧ Action.sigterm ∈ acts) := by
  intro procs
  induction procs with
  | nil =>
    intro qp sigs0 _ _ _
    exact ⟨rfl, fun x hx => hx, by simp⟩
  | cons p rest ih =>
    intro qp sigs0 h1 h2 hall
    have hterm := terminateProc_no_escape qp h1 h2
    have hstep : startStep exe file room_url token bt tp cc
        ([(qp.pid, qp, room_url)], sigs0) p
        = ([(p.pid, p, room_url)], sigs0 ++ [(qp.pid, (terminateProc qp).1)]) := by
      simp [startStep, start_bot_process, cleanupRoom, hterm, setEntry]
    rw [List.foldl_cons, hstep]
    obtain ⟨hreg, hmono, hsig⟩ := ih p (sigs0 ++ [(qp.pid, (terminateProc qp).1)])
      (hall p (List.mem_cons_self p rest)).1 (hall p (List.mem_cons_self p rest)).2
      (fun q hq => hall q (List.mem_cons_of_mem p hq))
    refine ⟨?_, ?_, ?_⟩
    · rw [hreg, List.getLastD_cons qp p rest]
    · intro x hx
      exact hmono x (List.mem_append_left _ hx)
    · intro q hq
      rw [List.dropLast_cons₂] at hq
      rcases List.mem_cons.mp hq with rfl | hq'
      · exact ⟨(terminateProc q).1,
          hmono _ (List.mem_append_right _ (List.mem_singleton_self _)),
          terminateProc_sigterm q⟩
      · exact hsig q hq'

/-- C2: the scan–terminate–spawn–register sequence of `start_bot_process`
is serialized: the handler is synchronous code with no await point, so the
single asyncio event loop under which uvicorn runs the app executes it
atomically with respect to every other request — the code's "equivalent
serialization" in place of a mutex.  Modelling N ≥ 1 concurrent starts for
the same room as atomic steps run in an arbitrary schedule order `procs`,
after all calls settle the registry holds exactly one live worker for that
room — the schedule's last — and every other spawned worker has been sent
the termination signal, so no duplicate worker is leaked. -/
theorem concurrent_starts_one_worker (exe file room_url token bt tp cc : String)
    (procs : List Proc) (dflt : Proc) (hne : procs ≠ [])
    (hgood : ∀ p ∈ procs, p.terminateRaises = false ∧ p.killRaises = false) :
    (runStarts exe file room_url token bt tp cc procs).1
      = [((procs.getLastD dflt).pid, procs.getLastD dflt, room_url)] ∧
    ∀ p ∈ procs.dropLast,
      ∃ acts, (p.pid, acts) ∈ (runStarts exe file room_url token bt tp cc procs).2 ∧
        Action.sigterm ∈ acts := by
  match procs, hne with
  | p :: rest, _ =>
    have hstep0 : startStep exe file room_url token bt tp cc ([], []) p
        = ([(p.pid, p, room_url)], []) := by
      simp [startStep, start_bot_process, cleanupRoom, setEntry]
    obtain ⟨hreg, _, hsig⟩ := runStarts_invariant exe file room_url token bt tp cc rest p []
      (hgood p (List.mem_cons_self p rest)).1 (hgood p (List.mem_cons_self p rest)).2
      (fun q hq => hgood q (List.mem_cons_of_mem p hq))
    constructor
    · show (List.foldl (startStep exe file room_url token bt tp cc) ([], []) (p :: rest)).1
        = _
      rw [List.foldl_cons, hstep0, hreg, List.getLastD_cons dflt p rest]
    · intro q hq
      show ∃ acts, (q.pid, acts) ∈ (List.foldl (startStep exe file room_url token bt tp cc)
        ([], []) (p :: rest)).2 ∧ Action.sigterm ∈ acts
      rw [List.foldl_cons, hstep0]
      exact hsig q hq

/-- Witness for C2: two racing starts for roomA (pids 4 then 9) leave only
pid 9 registered, pid 4 having been signalled. -/
theorem concurrent_starts_one_worker_witness :
    (runStarts "python" "bot-gemini.py" "roomA" "tok" "general" "" ""
        [⟨4, false, true, false⟩, ⟨9, false, true, false⟩]).1
      = [(9, ⟨9, false, true, false⟩, "roomA")] :=
  (concurrent_starts_one_worker "python" "bot-gemini.py" "roomA" "tok" "general" "" ""
    [⟨4, false, true, false⟩, ⟨9, false, true, false⟩] ⟨0, false, false, false⟩
    (by decide) (by decide)).1

end Phronesis
